/-
Verification of the playlist-bot core against its specification.

The definitions below are a shallow embedding of the repository's Python
code.  Network calls (Yandex Music API fetches and writes) are modelled by
passing the would-be responses of the remote service in explicitly as
input data: each retry attempt of a mutation loop consumes one element of
a list of per-attempt environments.  Error objects are reduced to the one
predicate the code actually branches on, namely whether the lowercased
error text contains the substring "revision" (the code tests
`"wrong-revision" in msg or "revision" in msg`, which is equivalent to the
second disjunct alone); that predicate's value is part of the environment.
-/
import Mathlib

namespace YmBot

/-! ### Local data model (src/database/sqlite_db.py)

A row of the `playlist_access` table, and the locally stored playlist
record.  Only the columns the verified operations read are carried
(`description`, `share_token`, `uuid`, timestamps are never consulted by
the claims' code paths). -/

/-- One row of the `playlist_access` table
(`sqlite_db.py`, `init_db`, table `playlist_access`). -/
structure AccessRow where
  playlist_id : Nat
  telegram_id : Nat
  can_add : Bool
  can_edit : Bool
  can_delete : Bool
  deriving Repr, DecidableEq

/-- The locally stored playlist record (`playlists` table), restricted to
the columns the verified code reads. -/
structure LocalPlaylist where
  playlist_kind : String
  owner_id : String
  creator_telegram_id : Nat
  title : Option String
  cover_url : Option String
  insert_position : String
  deriving Repr, DecidableEq

/-- Local database state: the `playlists` table as a map from row id, and
the `playlist_access` table as a list of rows (row order = insertion
order, as returned by SQLite). -/
structure Db where
  playlists : Nat → Option LocalPlaylist
  access_rows : List AccessRow

/-- The (playlist_id, telegram_id) key of an access row; the table has a
UNIQUE constraint on this pair. -/
def AccessRow.key (r : AccessRow) : Nat × Nat := (r.playlist_id, r.telegram_id)

/-- `sqlite_db.py` `grant_playlist_access`: `INSERT OR REPLACE` into
`playlist_access`.  Under the UNIQUE(playlist_id, telegram_id) constraint
this deletes any existing row with the same key and inserts the new one. -/
def grant_playlist_access (rows : List AccessRow) (playlist_id telegram_id : Nat)
    (can_add : Bool := true) (can_edit : Bool := false) (can_delete : Bool := false) :
    List AccessRow :=
  rows.filter (fun r => ¬(r.playlist_id = playlist_id ∧ r.telegram_id = telegram_id))
    ++ [⟨playlist_id, telegram_id, can_add, can_edit, can_delete⟩]

/-- `sqlite_db.py` `check_playlist_access`: select the (unique) row for
(playlist_id, telegram_id); with no row the answer is `false`; otherwise
each required capability bit must be set.  Note that the creator of the
playlist is not consulted here. -/
def check_playlist_access (db : Db) (playlist_id telegram_id : Nat)
    (need_add : Bool := false) (need_edit : Bool := false)
    (need_delete : Bool := false) : Bool :=
  match db.access_rows.find?
      (fun r => r.playlist_id = playlist_id ∧ r.telegram_id = telegram_id) with
  | none => false
  | some row =>
    if need_add ∧ ¬row.can_add then false
    else if need_edit ∧ ¬row.can_edit then false
    else if need_delete ∧ ¬row.can_delete then false
    else true

/-- `sqlite_db.py` `is_playlist_creator`: a row of `playlists` with this id
and this creator exists. -/
def is_playlist_creator (db : Db) (playlist_id telegram_id : Nat) : Bool :=
  match db.playlists playlist_id with
  | some p => p.creator_telegram_id = telegram_id
  | none => false

/-- `sqlite_db.py` `create_playlist`: insert the playlist row (the fresh
`AUTOINCREMENT` row id is passed in as `playlist_id`), then insert a
full-capability access row `(1, 1, 1)` for the creator. -/
def create_playlist (db : Db) (playlist_id : Nat) (pl : LocalPlaylist) : Db :=
  { playlists := fun i => if i = playlist_id then some pl else db.playlists i
    access_rows := db.access_rows
      ++ [⟨playlist_id, pl.creator_telegram_id, true, true, true⟩] }

/-- `sqlite_db.py` `update_playlist`, restricted to the `title` and
`cover_url` optional parameters (the remaining optional columns —
description, share_token, insert_position, uuid — follow the same
only-update-what-is-passed pattern and are not read by any claim).
A missing row is left missing (`UPDATE ... WHERE id = ?` matches nothing). -/
def update_playlist (db : Db) (playlist_id : Nat)
    (title : Option String := none) (cover_url : Option String := none) : Db :=
  { db with playlists := fun i =>
      if i = playlist_id then
        match db.playlists i with
        | some p => some { p with
            title := match title with | some t => some t | none => p.title
            cover_url := match cover_url with | some c => some c | none => p.cover_url }
        | none => none
      else db.playlists i }

/-! ### Remote snapshots and the mutation engine (src/services/yandex_service.py)

A remote playlist snapshot, as the code reads it: `getattr(pl, "revision", 1)`
and `getattr(pl, "tracks", []) or []`.  Track objects are opaque to the
engine (only `len(tracks)` is consulted), so the snapshot is polymorphic in
the track-object type `α`. -/

/-- A fetched remote playlist snapshot.  `revision`/`tracks` are `Option`s
because the Python code reads them with `getattr(..., default)`. -/
structure RemotePlaylist (α : Type) where
  revision : Option Int
  tracks : Option (List α)
  deriving Repr, DecidableEq

/-- `getattr(pl, "revision", 1)`. -/
def revisionOf {α : Type} (pl : RemotePlaylist α) : Int := pl.revision.getD 1

/-- `getattr(pl, "tracks", []) or []`. -/
def tracksOf {α : Type} (pl : RemotePlaylist α) : List α := pl.tracks.getD []

/-- The `max_retries` default of the mutation methods. -/
def max_retries_default : Nat := 2

/-! #### insert_track_to_playlist -/

/-- Outcome of the `users_playlists_insert_track` call of one attempt.
`err revisionRelated` models a raised exception whose lowercased text
does (`true`) or does not (`false`) contain `"revision"`. -/
inductive InsertSubmit where
  | ok
  | err (revisionRelated : Bool)
  deriving Repr, DecidableEq

/-- Environment of one attempt of the insert loop: what the snapshot fetch
and (if reached) the insert call return.  `fetchNone` = `users_playlists`
returned `None`; `fetchErr` = the fetch raised. -/
inductive InsertStep (α : Type) where
  | fetchNone
  | fetchErr (revisionRelated : Bool)
  | fetched (pl : RemotePlaylist α) (submit : InsertSubmit)
  deriving Repr, DecidableEq

/-- The observable outcomes of `insert_track_to_playlist`, one per distinct
`return` statement. -/
inductive InsertResult where
  /-- `return True, None` -/
  | success
  /-- `return False, "Не удалось получить плейлист."` -/
  | fetchFailed
  /-- `return False, f"Ошибка вставки: \x7be\x7d"` -/
  | insertError (revisionRelated : Bool)
  /-- the post-loop `return False, "Не удалось добавить трек после нескольких попыток"` -/
  | exhausted
  deriving Repr, DecidableEq

/-- The insert request an attempt submits:
`users_playlists_insert_track(kind, track_id, album_id, at=at, revision=revision, user_id=owner)`,
reduced to the two computed arguments. -/
structure InsertReq where
  atIdx : Nat
  revision : Int
  deriving Repr, DecidableEq

/-- The revision parameter the serialized insert request carries: the
`revision=` keyword argument. -/
def InsertReq.revisionParam (r : InsertReq) : Option Int := some r.revision

/-- Trace of one `insert_track_to_playlist` call: its returned result, the
insert requests it submitted (in order), and how many snapshot fetches it
performed. -/
structure InsertTrace where
  result : InsertResult
  reqs : List InsertReq
  fetches : Nat
  deriving Repr, DecidableEq

/-- The insertion index of one attempt:
`at = 0 if insert_position == 'start' else len(tracks)`. -/
def insert_at {α : Type} (insert_position : String) (pl : RemotePlaylist α) : Nat :=
  if insert_position = "start" then 0 else (tracksOf pl).length

/-- `yandex_service.py` `insert_track_to_playlist`: the retry loop, one
environment element per attempt (the list length is the `max_retries`
bound; `attempt < max_retries - 1` is exactly "the remaining-attempts list
is nonempty").  An error retries iff its text is revision-related and
attempts remain; everything else returns immediately. -/
def insert_track_to_playlist {α : Type} (insert_position : String) :
    List (InsertStep α) → InsertTrace
  | [] => ⟨.exhausted, [], 0⟩
  | .fetchNone :: _ => ⟨.fetchFailed, [], 1⟩
  | .fetchErr rev :: rest =>
    if rev && !rest.isEmpty then
      let t := insert_track_to_playlist insert_position rest
      ⟨t.result, t.reqs, t.fetches + 1⟩
    else ⟨.insertError rev, [], 1⟩
  | .fetched pl submit :: rest =>
    let req : InsertReq := ⟨insert_at insert_position pl, revisionOf pl⟩
    match submit with
    | .ok => ⟨.success, [req], 1⟩
    | .err rev =>
      if rev && !rest.isEmpty then
        let t := insert_track_to_playlist insert_position rest
        ⟨t.result, req :: t.reqs, t.fetches + 1⟩
      else ⟨.insertError rev, [req], 1⟩

/-! #### delete_track_from_playlist -/

/-- One diff op of the `change-relative` request body:
`{"op": "delete", "from": from_idx, "to": api_to_idx}`. -/
structure DiffOp where
  op : String
  fromIdx : Int
  toIdx : Int
  deriving Repr, DecidableEq

/-- The delete request an attempt submits: the URL carries
`diff={...}&revision={revision}`. -/
structure DeleteReq where
  diff : List DiffOp
  revision : Int
  deriving Repr, DecidableEq

/-- The revision parameter the serialized delete request carries: the
`&revision={revision}` URL query parameter. -/
def DeleteReq.revisionParam (r : DeleteReq) : Option Int := some r.revision

/-- Outcome of the `requests.post` submitting the delete diff:
an HTTP response with a status code (whose body text may or may not be
revision-related), or a raised exception. -/
inductive SubmitHttp where
  | status (code : Nat) (bodyRevisionRelated : Bool)
  | exn (revisionRelated : Bool)
  deriving Repr, DecidableEq

/-- Environment of one attempt of the delete loop.  `verify` is what the
post-delete verification fetch would return (`none` = `users_playlists`
returned `None`).  `raised` models an exception caught by the attempt's
outer handler. -/
inductive DeleteStep (α : Type) where
  | fetchNone
  | raised (revisionRelated : Bool)
  | fetched (pl : RemotePlaylist α) (http : SubmitHttp) (verify : Option (RemotePlaylist α))
  deriving Repr, DecidableEq

/-- The observable outcomes of `delete_track_from_playlist`, one per
distinct `return` statement. -/
inductive DeleteResult where
  /-- `return True, None` -/
  | success
  /-- `return False, "Не удалось получить плейлист."` -/
  | fetchFailed
  /-- `from_idx < 0 or to_idx < 0` -/
  | invalidIndices
  /-- `from_idx >= tracks_count_before or to_idx >= tracks_count_before` -/
  | outOfBounds
  /-- `from_idx > to_idx` -/
  | badRange
  /-- non-200 HTTP status: `return False, f"Ошибка API: статус ..."` -/
  | apiError (code : Nat)
  /-- `requests` exception: `return False, f"Ошибка при выполнении запроса: ..."` -/
  | reqError (revisionRelated : Bool)
  /-- outer exception handler: `return False, f"Ошибка удаления: ..."` -/
  | raisedError (revisionRelated : Bool)
  /-- attempts exhausted with the track count unchanged -/
  | noChange
  /-- attempts exhausted with the track count not decreased -/
  | notDecreased
  /-- the post-loop `return False, "Не удалось удалить трек после нескольких попыток"` -/
  | exhausted
  deriving Repr, DecidableEq

/-- Trace of one `delete_track_from_playlist` call. -/
structure DeleteTrace where
  result : DeleteResult
  reqs : List DeleteReq
  fetches : Nat
  deriving Repr, DecidableEq

/-- The part of a delete attempt after the diff has been submitted:
branch on the HTTP outcome and, on status 200, on the verification
re-fetch.  Returns `none` when the loop should `continue` (retry), which
the code does only when attempts remain (`hasMore`).  On a 200 response
with the verification fetch returning `None`, the code returns success
without any count comparison. -/
def delete_attempt_submit {α : Type} (before : Nat) (hasMore : Bool)
    (http : SubmitHttp) (verify : Option (RemotePlaylist α)) : Option DeleteResult :=
  match http with
  | .status code bodyRev =>
    if code ≠ 200 then
      if bodyRev && hasMore then none else some (.apiError code)
    else
      match verify with
      | none => some .success
      | some plAfter =>
        let after := (tracksOf plAfter).length
        if after = before then
          if hasMore then none else some .noChange
        else if before ≤ after then
          if hasMore then none else some .notDecreased
        else some .success
  | .exn rev => if rev && hasMore then none else some (.reqError rev)

/-- `yandex_service.py` `delete_track_from_playlist`: per attempt, fetch a
snapshot, validate the inclusive 0-based range against the current count,
submit the diff `[{op: "delete", from: from_idx, to: to_idx + 1}]` (the
API's `to` is exclusive) with the snapshot's revision, then verify by
re-fetching and comparing counts.  `expected_deleted = to_idx - from_idx + 1`
is computed by the code but only logged, never branched on. -/
def delete_track_from_playlist {α : Type} (from_idx to_idx : Int) :
    List (DeleteStep α) → DeleteTrace
  | [] => ⟨.exhausted, [], 0⟩
  | .fetchNone :: _ => ⟨.fetchFailed, [], 1⟩
  | .raised rev :: rest =>
    if rev && !rest.isEmpty then
      let t := delete_track_from_playlist from_idx to_idx rest
      ⟨t.result, t.reqs, t.fetches + 1⟩
    else ⟨.raisedError rev, [], 1⟩
  | .fetched pl http verify :: rest =>
    let before := (tracksOf pl).length
    if from_idx < 0 ∨ to_idx < 0 then ⟨.invalidIndices, [], 1⟩
    else if (before : Int) ≤ from_idx ∨ (before : Int) ≤ to_idx then ⟨.outOfBounds, [], 1⟩
    else if to_idx < from_idx then ⟨.badRange, [], 1⟩
    else
      let req : DeleteReq := ⟨[⟨"delete", from_idx, to_idx + 1⟩], revisionOf pl⟩
      match delete_attempt_submit before (!rest.isEmpty) http verify with
      | some r => ⟨r, [req], 1⟩
      | none =>
        let t := delete_track_from_playlist from_idx to_idx rest
        ⟨t.result, req :: t.reqs, t.fetches + 1⟩

/-- `handlers/commands.py` `delete_track_input`: the 1-based user index is
translated to the service's inclusive 0-based range
`from_idx = index - 1, to_idx = index - 1`. -/
def delete_track_input_range (index : Int) : Int × Int := (index - 1, index - 1)

/-! #### set_playlist_cover (YandexService level) -/

/-- The `image_file` argument of `set_playlist_cover`, following the three
branches of the code: a file-like object (`hasattr(image_file, 'read')`),
`bytes`/`bytearray`, or anything else (rejected). -/
inductive ImageInput where
  | fileLike (data : List Nat)
  | bytesLike (data : List Nat)
  | invalid
  deriving Repr, DecidableEq

/-- The cover-upload request an attempt submits: a POST of
`.../playlists/.../cover/upload` whose multipart body holds only the
`image` field.  Per the code (and its comment "revision не передается в
запросе на /cover/upload"), neither the URL nor the body carries a
revision. -/
structure CoverUploadReq where
  image : List Nat
  deriving Repr, DecidableEq

/-- The revision parameter the serialized cover-upload request carries:
none — the upload URL has no query parameters and the multipart body holds
only the image bytes. -/
def CoverUploadReq.revisionParam (_ : CoverUploadReq) : Option Int := none

/-- Environment of one attempt of the cover loop: the snapshot fetch
outcome and, if the upload POST happens, its HTTP status.  `raised` models
an exception caught by the attempt's handler. -/
inductive CoverStep (α : Type) where
  | fetchNone
  | raised (revisionRelated : Bool)
  | fetched (pl : RemotePlaylist α) (uploadStatus : Nat)
  deriving Repr, DecidableEq

/-- The observable outcomes of `set_playlist_cover`, one per distinct
`return` statement. -/
inductive CoverResult where
  /-- `return True, None` (status 200) -/
  | success
  /-- `return False, "Не удалось получить плейлист."` -/
  | fetchFailed
  /-- `return False, "Неверный формат файла изображения."` -/
  | badImage
  /-- non-200 status: `return False, f"Ошибка загрузки: статус ..."` (not retried) -/
  | uploadError (code : Nat)
  /-- exception handler: `return False, f"Ошибка установки обложки: ..."` -/
  | coverError (revisionRelated : Bool)
  /-- the post-loop `return False, "Не удалось установить обложку после нескольких попыток"` -/
  | exhausted
  deriving Repr, DecidableEq

/-- Trace of one `set_playlist_cover` call.  `computedRevisions` records,
per attempt that reached it, the value of the local
`revision = getattr(pl, "revision", 1)` — a variable the code assigns but
never sends with the upload request. -/
structure CoverTrace where
  result : CoverResult
  reqs : List CoverUploadReq
  computedRevisions : List Int
  deriving Repr, DecidableEq

/-- `yandex_service.py` `set_playlist_cover`: per attempt, fetch a
snapshot, compute the (unused) revision default, extract the image bytes,
POST them to `.../cover/upload`; status 200 succeeds and any other status
returns immediately; only a revision-related exception with attempts
remaining retries. -/
def set_playlist_cover {α : Type} (image_file : ImageInput) :
    List (CoverStep α) → CoverTrace
  | [] => ⟨.exhausted, [], []⟩
  | .fetchNone :: _ => ⟨.fetchFailed, [], []⟩
  | .raised rev :: rest =>
    if rev && !rest.isEmpty then set_playlist_cover image_file rest
    else ⟨.coverError rev, [], []⟩
  | .fetched pl uploadStatus :: _ =>
    let revision := revisionOf pl
    match image_file with
    | .invalid => ⟨.badImage, [], [revision]⟩
    | .fileLike data | .bytesLike data =>
      let req : CoverUploadReq := ⟨data⟩
      if uploadStatus = 200 then ⟨.success, [req], [revision]⟩
      else ⟨.uploadError uploadStatus, [req], [revision]⟩

/-! ### The credential router (src/yandex_client_manager.py)

`_init_client_with_retry` performs the actual handshake with internal
timeout retries and backoff; the claims depend only on whether it
ultimately succeeds for a given token, so its outcome is the environment:
`initOk token = true` means a session for `token` can be created
(`Client(token).init()` eventually succeeds), `false` means the retries
are exhausted (or a non-retryable error occurs) and it raises. -/

/-- A live session: the credential it was created from identifies it
(`Client(token)`). -/
inductive Client where
  | mk (token : String)
  deriving Repr, DecidableEq

/-- Whether `_init_client_with_retry token` ultimately returns a client or
raises. -/
structure InitEnv where
  initOk : String → Bool

/-- The rows of the database the router reads:
`get_user_yandex_token` (per-user token), `get_playlist` (reduced to its
`yandex_account_id` column), `get_yandex_account_by_id` (reduced to its
`telegram_id` column, `none` for the default account's NULL). -/
structure MgrDb where
  user_tokens : Nat → Option String
  playlist_account : Nat → Option (Option Nat)
  account_user : Nat → Option (Option Nat)

/-- The manager's mutable state: the cached default client (`none` while
`_default_client_initialized` is false) and the per-user client cache. -/
structure ManagerState where
  default_token : String
  default_client : Option Client
  user_clients : List (Nat × Client)
  deriving Repr, DecidableEq

/-- `_ensure_default_client`: initialize the default client on first use;
exhausted retries raise a `RuntimeError` (fatal to the call). -/
def ensure_default_client (env : InitEnv) (st : ManagerState) :
    Except String (Client × ManagerState) :=
  match st.default_client with
  | some c => .ok (c, st)
  | none =>
    if env.initOk st.default_token then
      let c := Client.mk st.default_token
      .ok (c, { st with default_client := some c })
    else
      .error ("Дефолтный клиент Яндекс.Музыки не инициализирован. Проверьте токен и сетевое подключение.")

/-- `yandex_client_manager.py` `get_client`: no user id or no personal
token → the default client; cached personal client → return it; otherwise
create the personal client, and — per the code's "В случае ошибки
возвращаем дефолтный клиент" — fall back to the default client when that
creation fails. -/
def get_client (env : InitEnv) (db : MgrDb) (st : ManagerState)
    (telegram_id : Option Nat) : Except String (Client × ManagerState) :=
  match telegram_id with
  | none => ensure_default_client env st
  | some tid =>
    match db.user_tokens tid with
    | none => ensure_default_client env st
    | some user_token =>
      match st.user_clients.lookup tid with
      | some c => .ok (c, st)
      | none =>
        if env.initOk user_token then
          let c := Client.mk user_token
          .ok (c, { st with user_clients := (tid, c) :: st.user_clients })
        else
          ensure_default_client env st

/-- `yandex_client_manager.py` `get_client_for_playlist`: resolve the
account the playlist was created with and delegate to `get_client`; every
resolution failure falls back to the default client.  The `= 0` guards
mirror Python's falsiness tests `if not yandex_account_id` and
`if telegram_id:` (which treat 0 like NULL). -/
def get_client_for_playlist (env : InitEnv) (db : MgrDb) (st : ManagerState)
    (playlist_id : Nat) : Except String (Client × ManagerState) :=
  match db.playlist_account playlist_id with
  | none => ensure_default_client env st
  | some acct =>
    match acct with
    | none => ensure_default_client env st
    | some account_id =>
      if account_id = 0 then ensure_default_client env st
      else
        match db.account_user account_id with
        | none => ensure_default_client env st
        | some owner =>
          match owner with
          | some tid =>
            if tid = 0 then ensure_default_client env st
            else get_client env db st (some tid)
          | none => ensure_default_client env st

/-! ### The playlist service layer (src/services/playlist_service.py)

`edit_playlist_name` and `PlaylistService.set_playlist_cover` route
through the client manager and then call the corresponding
`YandexService` method; here the outcome of that underlying remote call
is the environment (`remote_ok`, `remote_err` — the `(ok, error)` pair it
returns).  `log_action` appends to the audit table and never touches the
`playlists` table, so it is not part of the `Db` transition. -/

/-- `playlist_service.py` `edit_playlist_name`: missing playlist and
non-creator callers fail; on remote success the local title is updated
via `update_playlist(playlist_id, title=new_name)` before returning. -/
def edit_playlist_name (db : Db) (playlist_id : Nat) (new_name : String)
    (telegram_id : Nat) (remote_ok : Bool) (remote_err : Option String) :
    (Bool × Option String) × Db :=
  match db.playlists playlist_id with
  | none => ((false, some ("Плейлист не найден.")), db)
  | some _ =>
    if ¬is_playlist_creator db playlist_id telegram_id then
      ((false, some ("Только создатель плейлиста может изменять его название.")), db)
    else if remote_ok then
      ((true, none), update_playlist db playlist_id (some new_name) none)
    else
      ((false, some (remote_err.getD "Ошибка изменения имени плейлиста")), db)

/-- `playlist_service.py` `set_playlist_cover`: missing playlist and
non-creator callers fail; on remote success the code only logs the action
and returns — no `update_playlist` call occurs, so the stored record is
returned unchanged. -/
def service_set_playlist_cover (db : Db) (playlist_id : Nat)
    (telegram_id : Nat) (remote_ok : Bool) (remote_err : Option String) :
    (Bool × Option String) × Db :=
  match db.playlists playlist_id with
  | none => ((false, some ("Плейлист не найден.")), db)
  | some _ =>
    if ¬is_playlist_creator db playlist_id telegram_id then
      ((false, some ("Только создатель плейлиста может изменять обложку.")), db)
    else if remote_ok then
      ((true, none), db)
    else
      ((false, some (remote_err.getD "Ошибка установки обложки")), db)

/-! ### Shared helper lemmas -/

/-- `find?` over an appended singleton: when nothing in the prefix
matches, the appended element is examined. -/
theorem find?_append_singleton {α : Type} (p : α → Bool) (l : List α) (a : α)
    (h : ∀ x ∈ l, ¬p x = true) : (l ++ [a]).find? p = [a].find? p := by
  induction l with
  | nil => rfl
  | cons x xs ih =>
    have hx : ¬p x = true := h x (by simp)
    rw [List.cons_append, List.find?_cons_of_neg _ hx]
    exact ih (fun y hy => h y (by simp [hy]))

/-- Every attempt of the insert loop that reaches the submit call submits
the request computed from that attempt's snapshot. -/
theorem insert_first_req {α : Type} (pos : String) (pl : RemotePlaylist α)
    (sub : InsertSubmit) (rest : List (InsertStep α)) :
    (insert_track_to_playlist pos (.fetched pl sub :: rest)).reqs.head? =
      some ⟨insert_at pos pl, revisionOf pl⟩ := by
  cases sub with
  | ok => simp [insert_track_to_playlist]
  | err rev =>
    simp only [insert_track_to_playlist]
    split <;> simp

/-- A delete attempt whose 0-based inclusive range is valid for its
snapshot submits the diff `[{op: "delete", from, to + 1}]` with the
snapshot's revision, whatever happens afterwards. -/
theorem delete_first_req {α : Type} (from_idx to_idx : Int)
    (pl : RemotePlaylist α) (http : SubmitHttp)
    (verify : Option (RemotePlaylist α)) (rest : List (DeleteStep α))
    (h0 : 0 ≤ from_idx) (h1 : from_idx ≤ to_idx)
    (h2 : to_idx < ((tracksOf pl).length : Int)) :
    (delete_track_from_playlist from_idx to_idx
        (.fetched pl http verify :: rest)).reqs.head? =
      some ⟨[⟨"delete", from_idx, to_idx + 1⟩], revisionOf pl⟩ := by
  have e1 : ¬(from_idx < 0 ∨ to_idx < 0) := by omega
  have e2 : ¬(((tracksOf pl).length : Int) ≤ from_idx ∨
      ((tracksOf pl).length : Int) ≤ to_idx) := by omega
  have e3 : ¬(to_idx < from_idx) := by omega
  simp only [delete_track_from_playlist]
  rw [if_neg e1, if_neg e2, if_neg e3]
  cases h : delete_attempt_submit (tracksOf pl).length (!rest.isEmpty) http verify <;>
    simp [h]

/-! ### C8: grant is an idempotent upsert -/

/-- C8: `grant_playlist_access` is an idempotent upsert: granting the same
capabilities twice equals granting once, the resulting table holds exactly
one row keyed (p, u), that row carries exactly the granted capability
bits, and re-granting is a total operation (no error outcome exists). -/
theorem grant_playlist_access_idempotent_upsert
    (rows : List AccessRow) (p u : Nat) (ca ce cd : Bool) :
    grant_playlist_access (grant_playlist_access rows p u ca ce cd) p u ca ce cd
      = grant_playlist_access rows p u ca ce cd
    ∧ (grant_playlist_access rows p u ca ce cd).countP
        (fun r => decide (r.playlist_id = p ∧ r.telegram_id = u)) = 1
    ∧ (⟨p, u, ca, ce, cd⟩ : AccessRow) ∈ grant_playlist_access rows p u ca ce cd := by
  refine ⟨?_, ?_, ?_⟩
  · simp only [grant_playlist_access, List.filter_append]
    simp [List.filter_filter]
  · have h : (rows.filter (fun r => ¬(r.playlist_id = p ∧ r.telegram_id = u))).countP
        (fun r => decide (r.playlist_id = p ∧ r.telegram_id = u)) = 0 := by
      rw [List.countP_eq_zero]
      intro r hr
      simp only [List.mem_filter] at hr
      have := hr.2
      simp only [decide_not, Bool.not_eq_true', decide_eq_false_iff_not] at this
      simpa using this
    simp only [grant_playlist_access, List.countP_append, h]
    simp
  · simp [grant_playlist_access]

/-! ### C1: the access check and the creator -/

/-- A concrete database with one playlist (id 1, created by user 5) and an
empty `playlist_access` table. -/
def creatorOnlyDb : Db :=
  { playlists := fun i =>
      if i = 1 then some ⟨"100", "owner-uid", 5, some ("T"), none, "end"⟩ else none
    access_rows := [] }

/-- C1 counterexample: user 5 is the creator of playlist 1, yet with no
grant row `check_playlist_access` returns `false` for them — for every
capability requirement, including the empty one.  The claim that the
access check passes for the creator even without a grant row is false. -/
theorem check_playlist_access_denies_rowless_creator :
    is_playlist_creator creatorOnlyDb 1 5 = true
    ∧ check_playlist_access creatorOnlyDb 1 5 true true true = false
    ∧ check_playlist_access creatorOnlyDb 1 5 false false false = false := by
  exact ⟨rfl, rfl, rfl⟩

/-- C1 (amended): `check_playlist_access` consults only the grant table,
never the playlist's creator.  Over an arbitrary database it returns true
iff the grant row selected for (playlist, user) exists and every required
capability bit in it is set; with no grant row it returns `false` even if
that user is the creator; on a table holding the (playlist, user) grant
row, the answer is exactly "every required bit is set" (false when a
required bit is unset, true when the — possibly partial — capabilities
cover the requirement); and the creator passes after `create_playlist`
only because that inserts a full-capability row for them. -/
theorem check_playlist_access_rows_only (db : Db) (pid tid : Nat)
    (na ne nd : Bool) :
    (check_playlist_access db pid tid na ne nd = true ↔
      ∃ r, db.access_rows.find?
          (fun r => r.playlist_id = pid ∧ r.telegram_id = tid) = some r
        ∧ (na = true → r.can_add = true)
        ∧ (ne = true → r.can_edit = true)
        ∧ (nd = true → r.can_delete = true))
    ∧ (db.access_rows.find?
          (fun r => r.playlist_id = pid ∧ r.telegram_id = tid) = none →
        check_playlist_access db pid tid na ne nd = false)
    ∧ (∀ r : AccessRow, r.playlist_id = pid → r.telegram_id = tid →
        check_playlist_access ⟨db.playlists, [r]⟩ pid tid na ne nd
          = ((!na || r.can_add) && ((!ne || r.can_edit) && (!nd || r.can_delete))))
    ∧ (∀ pl : LocalPlaylist,
        (∀ r ∈ db.access_rows,
          ¬(r.playlist_id = pid ∧ r.telegram_id = pl.creator_telegram_id)) →
        check_playlist_access (create_playlist db pid pl) pid
          pl.creator_telegram_id na ne nd = true) := by
  refine ⟨?_, ?_, ?_, ?_⟩
  · cases hf : db.access_rows.find?
        (fun r => r.playlist_id = pid ∧ r.telegram_id = tid) with
    | none =>
      simp only [check_playlist_access]
      rw [hf]
      simp
    | some row =>
      simp only [check_playlist_access]
      rw [hf]
      obtain ⟨rp, rt, ca, ce, cd⟩ := row
      cases na <;> cases ne <;> cases nd <;>
        cases ca <;> cases ce <;> cases cd <;> simp
  · intro hf
    simp only [check_playlist_access]
    rw [hf]
  · intro r hp hq
    obtain ⟨rp, rt, ca, ce, cd⟩ := r
    dsimp only at hp hq
    subst hp
    subst hq
    simp only [check_playlist_access]
    cases na <;> cases ne <;> cases nd <;>
      cases ca <;> cases ce <;> cases cd <;> simp [List.find?]
  · intro pl hfresh
    have hfind : ((create_playlist db pid pl).access_rows).find?
        (fun r => r.playlist_id = pid ∧ r.telegram_id = pl.creator_telegram_id)
        = some ⟨pid, pl.creator_telegram_id, true, true, true⟩ := by
      show (db.access_rows ++ [_]).find? _ = _
      rw [find?_append_singleton]
      · simp
      · intro r hr
        simpa using hfresh r hr
    simp only [check_playlist_access]
    rw [hfind]
    simp

/-- C1 amended-theorem witness: the amended statement at concrete inputs —
no grant row denies user 7; on a table with the add-only grant row
(1, 7, add := true), requiring edit is denied while requiring add passes;
and after `create_playlist` the creator 5 passes. -/
theorem check_playlist_access_rows_only_witness :
    check_playlist_access creatorOnlyDb 1 7 true false false = false
    ∧ check_playlist_access
        ⟨creatorOnlyDb.playlists, [⟨1, 7, true, false, false⟩]⟩
        1 7 false true false = false
    ∧ check_playlist_access
        ⟨creatorOnlyDb.playlists, [⟨1, 7, true, false, false⟩]⟩
        1 7 true false false = true
    ∧ check_playlist_access
        (create_playlist creatorOnlyDb 1 ⟨"100", "owner-uid", 5, some ("T"), none, "end"⟩)
        1 5 true false false = true := by
  refine ⟨?_, ?_, ?_, ?_⟩
  · exact (check_playlist_access_rows_only creatorOnlyDb 1 7 true false false).2.1 rfl
  · rw [(check_playlist_access_rows_only creatorOnlyDb 1 7 false true false).2.2.1
      ⟨1, 7, true, false, false⟩ rfl rfl]
    rfl
  · rw [(check_playlist_access_rows_only creatorOnlyDb 1 7 true false false).2.2.1
      ⟨1, 7, true, false, false⟩ rfl rfl]
    rfl
  · exact (check_playlist_access_rows_only creatorOnlyDb 1 5 true false false).2.2.2
      ⟨"100", "owner-uid", 5, some ("T"), none, "end"⟩
      (by intro r hr; simp [creatorOnlyDb] at hr)

/-! ### C4: the submitted delete diff -/

/-- C4: for a playlist snapshot of size N and a valid 1-based index i
(1 ≤ i ≤ N), the command handler translates i to the inclusive 0-based
range (i-1, i-1) and `delete_track_from_playlist` submits the remote diff
`[{op: "delete", from: i-1, to: i}]` — a half-open range deleting exactly
one element — whatever the remote service then answers. -/
theorem delete_track_submits_single_element_diff (i : Int)
    (pl : RemotePlaylist Nat) (http : SubmitHttp)
    (verify : Option (RemotePlaylist Nat)) (rest : List (DeleteStep Nat))
    (h1 : 1 ≤ i) (h2 : i ≤ ((tracksOf pl).length : Int)) :
    delete_track_input_range i = (i - 1, i - 1)
    ∧ (delete_track_from_playlist (i - 1) (i - 1)
        (.fetched pl http verify :: rest)).reqs.head? =
      some ⟨[⟨"delete", i - 1, i⟩], revisionOf pl⟩ := by
  refine ⟨rfl, ?_⟩
  have e1 : ¬(i - 1 < 0 ∨ i - 1 < 0) := by omega
  have e2 : ¬(((tracksOf pl).length : Int) ≤ i - 1 ∨
      ((tracksOf pl).length : Int) ≤ i - 1) := by omega
  have e3 : ¬(i - 1 < i - 1) := by omega
  have e4 : i - 1 + 1 = i := by omega
  simp only [delete_track_from_playlist]
  rw [if_neg e1, if_neg e2, if_neg e3, e4]
  cases h : delete_attempt_submit (tracksOf pl).length (!rest.isEmpty) http verify <;>
    simp [h]

/-- C4 witness: the theorem at i = 2 on a 3-track snapshot with
revision 10. -/
theorem delete_track_submits_single_element_diff_witness :
    delete_track_input_range 2 = (1, 1)
    ∧ (delete_track_from_playlist 1 1
        ([.fetched ⟨some 10, some [5, 6, 7]⟩ (.status 200 false) none] :
          List (DeleteStep Nat))).reqs.head?
      = some ⟨[⟨"delete", 1, 2⟩], 10⟩ := by
  have h := delete_track_submits_single_element_diff 2
    ⟨some 10, some [5, 6, 7]⟩ (.status 200 false) none []
    (by norm_num) (by norm_num [tracksOf])
  simpa [revisionOf] using h

/-! ### C9: a failed verification fetch skips the no-op detection -/

/-- C9: when the delete diff is accepted (HTTP 200) but the verification
re-fetch returns None, `delete_track_from_playlist` returns success
immediately — no count comparison happens, no retry is attempted, and the
remaining attempts are never consumed. -/
theorem delete_verification_fetch_failure_returns_success
    (from_idx to_idx : Int) (pl : RemotePlaylist Nat) (b : Bool)
    (rest : List (DeleteStep Nat))
    (h0 : 0 ≤ from_idx) (h1 : from_idx ≤ to_idx)
    (h2 : to_idx < ((tracksOf pl).length : Int)) :
    delete_track_from_playlist from_idx to_idx
        (.fetched pl (.status 200 b) none :: rest)
      = ⟨.success, [⟨[⟨"delete", from_idx, to_idx + 1⟩], revisionOf pl⟩], 1⟩ := by
  have e1 : ¬(from_idx < 0 ∨ to_idx < 0) := by omega
  have e2 : ¬(((tracksOf pl).length : Int) ≤ from_idx ∨
      ((tracksOf pl).length : Int) ≤ to_idx) := by omega
  have e3 : ¬(to_idx < from_idx) := by omega
  simp only [delete_track_from_playlist]
  rw [if_neg e1, if_neg e2, if_neg e3]
  simp [delete_attempt_submit]

/-- C9 witness: the theorem on a concrete 2-track snapshot, deleting
index 0, with a second attempt available that is never used. -/
theorem delete_verification_fetch_failure_returns_success_witness :
    delete_track_from_playlist 0 0
        ([.fetched ⟨some 4, some [8, 9]⟩ (.status 200 true) none,
          .fetchNone] : List (DeleteStep Nat))
      = ⟨.success, [⟨[⟨"delete", 0, 1⟩], 4⟩], 1⟩ := by
  have h := delete_verification_fetch_failure_returns_success 0 0
    ⟨some 4, some [8, 9]⟩ true [.fetchNone]
    (by norm_num) (by norm_num) (by norm_num [tracksOf])
  simpa [revisionOf] using h

/-! ### C5: the insertion index is recomputed from each attempt's snapshot -/

/-- C5: every attempt of `insert_track_to_playlist` computes its insertion
index from the snapshot fetched in that attempt — 0 under the 'start'
policy, that snapshot's track count under any other (i.e. 'end') policy;
after a revision-conflict retry the second request uses the second
snapshot's count; and two sequential inserts into a 5-track 'end' playlist
submit indices 5 and then 6 (the second call refetches, nothing is
cached). -/
theorem insert_index_recomputed_per_attempt
    (pl₁ pl₂ : RemotePlaylist Nat) (rest : List (InsertStep Nat))
    (h₁ : (tracksOf pl₁).length = 5) (h₂ : (tracksOf pl₂).length = 6) :
    (∀ (pos : String) (pl : RemotePlaylist Nat) (submit : InsertSubmit)
        (rest₀ : List (InsertStep Nat)),
      (insert_track_to_playlist pos (.fetched pl submit :: rest₀)).reqs.head? =
        some ⟨if pos = "start" then 0 else (tracksOf pl).length, revisionOf pl⟩)
    ∧ (insert_track_to_playlist "end"
        (.fetched pl₁ (.err true) :: .fetched pl₂ .ok :: rest)).reqs =
      [⟨5, revisionOf pl₁⟩, ⟨6, revisionOf pl₂⟩]
    ∧ (insert_track_to_playlist "end"
        [(.fetched pl₁ .ok : InsertStep Nat)]).reqs = [⟨5, revisionOf pl₁⟩]
    ∧ (insert_track_to_playlist "end"
        [(.fetched pl₂ .ok : InsertStep Nat)]).reqs = [⟨6, revisionOf pl₂⟩] := by
  refine ⟨?_, ?_, ?_, ?_⟩
  · intro pos pl submit rest₀
    cases submit with
    | ok => simp [insert_track_to_playlist, insert_at]
    | err rev =>
      simp only [insert_track_to_playlist]
      split <;> simp [insert_at]
  · simp [insert_track_to_playlist, insert_at, h₁, h₂]
  · simp [insert_track_to_playlist, insert_at, h₁]
  · simp [insert_track_to_playlist, insert_at, h₂]

/-- C5 witness: the theorem on concrete 5- and 6-track snapshots. -/
theorem insert_index_recomputed_per_attempt_witness :
    (insert_track_to_playlist "end"
        ([.fetched ⟨some 3, some [0, 1, 2, 3, 4]⟩ (.err true),
          .fetched ⟨some 4, some [0, 1, 2, 3, 4, 5]⟩ .ok] :
          List (InsertStep Nat))).reqs = [⟨5, 3⟩, ⟨6, 4⟩] := by
  have h := insert_index_recomputed_per_attempt
    ⟨some 3, some [0, 1, 2, 3, 4]⟩ ⟨some 4, some [0, 1, 2, 3, 4, 5]⟩ []
    (by norm_num [tracksOf]) (by norm_num [tracksOf])
  simpa [revisionOf] using h.2.1

/-! ### C6: the retry discipline of insert -/

/-- The number of snapshot fetches never exceeds the attempt budget. -/
theorem insert_fetches_le {α : Type} (pos : String) (steps : List (InsertStep α)) :
    (insert_track_to_playlist pos steps).fetches ≤ steps.length := by
  induction steps with
  | nil => simp [insert_track_to_playlist]
  | cons s rest ih =>
    cases s with
    | fetchNone => simp [insert_track_to_playlist]
    | fetchErr rev =>
      simp only [insert_track_to_playlist]
      split
      · simpa using Nat.succ_le_succ ih
      · simp
    | fetched pl submit =>
      cases submit with
      | ok => simp [insert_track_to_playlist]
      | err rev =>
        simp only [insert_track_to_playlist]
        split
        · simpa using Nat.succ_le_succ ih
        · simp

/-- C6: with the default budget of 2 attempts, `insert_track_to_playlist`
performs at most 2 fetch-and-submit cycles; every non-revision-conflict
first attempt (fetch returning None, non-revision fetch error, successful
submit, non-revision submit error) returns immediately after 1 fetch;
two fetches imply the first attempt ended in a revision conflict; a
first-attempt conflict followed by a successful second attempt returns
success after exactly 2 fetches; and exhausting both attempts on
conflicts returns the last conflict as the failure. -/
theorem insert_retry_discipline
    (pos : String) (s₁ s₂ : InsertStep Nat) (pl pl₁ pl₂ : RemotePlaylist Nat)
    (rest : List (InsertStep Nat)) :
    (insert_track_to_playlist pos [s₁, s₂]).fetches ≤ max_retries_default
    ∧ (insert_track_to_playlist pos (.fetchNone :: rest)) = ⟨.fetchFailed, [], 1⟩
    ∧ (insert_track_to_playlist pos (.fetchErr false :: rest))
        = ⟨.insertError false, [], 1⟩
    ∧ (insert_track_to_playlist pos (.fetched pl (.err false) :: rest))
        = ⟨.insertError false, [⟨insert_at pos pl, revisionOf pl⟩], 1⟩
    ∧ (insert_track_to_playlist pos (.fetched pl .ok :: rest))
        = ⟨.success, [⟨insert_at pos pl, revisionOf pl⟩], 1⟩
    ∧ (∀ t₁ t₂ : InsertStep Nat,
        (insert_track_to_playlist pos [t₁, t₂]).fetches = 2 →
        t₁ = .fetchErr true ∨ ∃ q, t₁ = .fetched q (.err true))
    ∧ (insert_track_to_playlist pos
        [.fetched pl₁ (.err true), .fetched pl₂ .ok])
        = ⟨.success, [⟨insert_at pos pl₁, revisionOf pl₁⟩,
            ⟨insert_at pos pl₂, revisionOf pl₂⟩], 2⟩
    ∧ (insert_track_to_playlist pos
        [.fetched pl₁ (.err true), .fetched pl₂ (.err true)])
        = ⟨.insertError true, [⟨insert_at pos pl₁, revisionOf pl₁⟩,
            ⟨insert_at pos pl₂, revisionOf pl₂⟩], 2⟩ := by
  refine ⟨?_, ?_, ?_, ?_, ?_, ?_, ?_, ?_⟩
  · simpa [max_retries_default] using insert_fetches_le pos [s₁, s₂]
  · simp [insert_track_to_playlist]
  · simp [insert_track_to_playlist]
  · simp [insert_track_to_playlist]
  · simp [insert_track_to_playlist]
  · intro t₁ t₂ hf
    cases t₁ with
    | fetchNone => simp [insert_track_to_playlist] at hf
    | fetchErr rev =>
      cases rev with
      | false => simp [insert_track_to_playlist] at hf
      | true => exact .inl rfl
    | fetched q submit =>
      cases submit with
      | ok => simp [insert_track_to_playlist] at hf
      | err rev =>
        cases rev with
        | false => simp [insert_track_to_playlist] at hf
        | true => exact .inr ⟨q, rfl⟩
  · simp [insert_track_to_playlist]
  · simp [insert_track_to_playlist]

/-! ### C3: silent-no-op detection of delete -/

/-- C3: when the remote service accepts the delete diff (HTTP 200) but the
verification re-fetch shows an unchanged track count, the attempt is
retried from the top (with the request resubmitted from a fresh snapshot)
instead of being declared a success; exhausting both attempts this way
returns the `noChange` failure, which is a different outcome from an
explicit remote rejection (`apiError` / `reqError`); and when the count
decreased by a different amount than the expected `to - from + 1`, the
call still returns success. -/
theorem delete_silent_noop_detection
    (from_idx to_idx : Int) (pl plSame plLess : RemotePlaylist Nat)
    (b b₂ : Bool) (code : Nat) (s₂ : DeleteStep Nat) (rest₂ : List (DeleteStep Nat))
    (hv0 : 0 ≤ from_idx) (hv1 : from_idx ≤ to_idx)
    (hv2 : to_idx < ((tracksOf pl).length : Int))
    (hsame : (tracksOf plSame).length = (tracksOf pl).length)
    (hless : (tracksOf plLess).length < (tracksOf pl).length)
    (hne : ((tracksOf plLess).length : Int) ≠
      ((tracksOf pl).length : Int) - (to_idx - from_idx + 1)) :
    (delete_track_from_playlist from_idx to_idx
        (.fetched pl (.status 200 b) (some plSame) :: s₂ :: rest₂)
      = ⟨(delete_track_from_playlist from_idx to_idx (s₂ :: rest₂)).result,
          ⟨[⟨"delete", from_idx, to_idx + 1⟩], revisionOf pl⟩ ::
            (delete_track_from_playlist from_idx to_idx (s₂ :: rest₂)).reqs,
          (delete_track_from_playlist from_idx to_idx (s₂ :: rest₂)).fetches + 1⟩)
    ∧ (delete_track_from_playlist from_idx to_idx
        [.fetched pl (.status 200 b) (some plSame),
         .fetched pl (.status 200 b₂) (some plSame)]
      = ⟨.noChange,
          [⟨[⟨"delete", from_idx, to_idx + 1⟩], revisionOf pl⟩,
           ⟨[⟨"delete", from_idx, to_idx + 1⟩], revisionOf pl⟩], 2⟩)
    ∧ DeleteResult.noChange ≠ .apiError code
    ∧ DeleteResult.noChange ≠ .reqError b
    ∧ (((tracksOf pl).length : Int) - ((tracksOf plLess).length : Int)
        ≠ to_idx - from_idx + 1)
    ∧ (delete_track_from_playlist from_idx to_idx
        (.fetched pl (.status 200 b) (some plLess) :: s₂ :: rest₂)
      = ⟨.success, [⟨[⟨"delete", from_idx, to_idx + 1⟩], revisionOf pl⟩], 1⟩) := by
  have e1 : ¬(from_idx < 0 ∨ to_idx < 0) := by omega
  have e2 : ¬(((tracksOf pl).length : Int) ≤ from_idx ∨
      ((tracksOf pl).length : Int) ≤ to_idx) := by omega
  have e3 : ¬(to_idx < from_idx) := by omega
  refine ⟨?_, ?_, by simp, by simp, by omega, ?_⟩
  · simp only [delete_track_from_playlist]
    rw [if_neg e1, if_neg e2, if_neg e3]
    simp [delete_attempt_submit, hsame]
  · simp only [delete_track_from_playlist]
    rw [if_neg e1, if_neg e2, if_neg e3]
    simp only [if_neg e1, if_neg e2, if_neg e3, delete_attempt_submit]
    simp [hsame]
  · simp only [delete_track_from_playlist]
    rw [if_neg e1, if_neg e2, if_neg e3]
    have hne2 : (tracksOf plLess).length ≠ (tracksOf pl).length := Nat.ne_of_lt hless
    have hnle : ¬((tracksOf pl).length ≤ (tracksOf plLess).length) := by omega
    simp [delete_attempt_submit, hne2, hnle]

/-- C3 witness: the theorem at from = to = 0 on a 3-track snapshot, with
an unchanged 3-track verification snapshot and a 1-track verification
snapshot (a decrease of 2 where 1 was expected). -/
theorem delete_silent_noop_detection_witness :
    (delete_track_from_playlist 0 0
        ([.fetched ⟨some 5, some [1, 2, 3]⟩ (.status 200 false)
            (some ⟨some 6, some [4, 5, 6]⟩),
          .fetched ⟨some 5, some [1, 2, 3]⟩ (.status 200 true)
            (some ⟨some 6, some [4, 5, 6]⟩)] : List (DeleteStep Nat))).result
      = .noChange
    ∧ (delete_track_from_playlist 0 0
        ([.fetched ⟨some 5, some [1, 2, 3]⟩ (.status 200 false)
            (some ⟨none, some [9]⟩),
          .fetchNone] : List (DeleteStep Nat))).result = .success := by
  have h := delete_silent_noop_detection 0 0
    ⟨some 5, some [1, 2, 3]⟩ ⟨some 6, some [4, 5, 6]⟩ ⟨none, some [9]⟩
    false true 404 .fetchNone []
    (by norm_num) (by norm_num) (by norm_num [tracksOf])
    (by norm_num [tracksOf]) (by norm_num [tracksOf]) (by norm_num [tracksOf])
  exact ⟨by rw [h.2.1], by rw [h.2.2.2.2.2]⟩

/-! ### C2: failed per-user session creation -/

/-- Environment of the C2 scenario: only the default token handshakes
successfully; the personal token's session creation exhausts its retries. -/
def c2Env : InitEnv := ⟨fun t => t == "default-token"⟩

/-- Database of the C2 scenario: user 7 has a personal token, playlist 1
was created with account 5, and account 5 belongs to user 7. -/
def c2Db : MgrDb :=
  { user_tokens := fun tid => if tid = 7 then some ("user-token") else none
    playlist_account := fun pid => if pid = 1 then some (some 5) else none
    account_user := fun aid => if aid = 5 then some (some 7) else none }

/-- Initial manager state of the C2 scenario: nothing cached yet. -/
def c2State : ManagerState := ⟨"default-token", none, []⟩

/-- C2 counterexample: playlist 1 is pinned to user 7's account, user 7's
personal session cannot be created, yet `get_client_for_playlist` — the
routing used by every mutation call — returns `.ok` with the session of
the shared default account instead of surfacing an error.  The claim that
the failure is surfaced and the default write identity is never silently
substituted is false. -/
theorem router_silently_substitutes_default_session :
    c2Db.user_tokens 7 = some ("user-token")
    ∧ c2Env.initOk "user-token" = false
    ∧ c2Db.playlist_account 1 = some (some 5)
    ∧ c2Db.account_user 5 = some (some 7)
    ∧ get_client_for_playlist c2Env c2Db c2State 1
      = .ok (Client.mk "default-token",
          { default_token := "default-token"
            default_client := some (.mk "default-token")
            user_clients := [] }) :=
  ⟨rfl, rfl, rfl, rfl, rfl⟩

/-- C2 (amended): when a user's personal session cannot be created, the
router falls back to the default session for every caller: `get_client`
returns the (cached) default client instead of raising, and
`get_client_for_playlist` on a playlist pinned to that user's account
therefore also answers with the shared default account's session; no
failure is surfaced to the mutation caller. -/
theorem router_fallback_on_user_session_failure
    (env : InitEnv) (db : MgrDb) (st : ManagerState)
    (pid aid tid : Nat) (utok : String) (c : Client)
    (hpl : db.playlist_account pid = some (some aid)) (haid : aid ≠ 0)
    (hacc : db.account_user aid = some (some tid)) (htid : tid ≠ 0)
    (htok : db.user_tokens tid = some utok)
    (hfail : env.initOk utok = false)
    (hmiss : st.user_clients.lookup tid = none)
    (hdef : st.default_client = some c) :
    get_client env db st (some tid) = .ok (c, st)
    ∧ get_client_for_playlist env db st pid = .ok (c, st) := by
  have h1 : get_client env db st (some tid) = .ok (c, st) := by
    simp [get_client, htok, hmiss, hfail, ensure_default_client, hdef]
  refine ⟨h1, ?_⟩
  simp [get_client_for_playlist, hpl, haid, hacc, htid, h1]

/-- C2 amended-theorem witness: the fallback at the concrete scenario
database, with the default client already cached. -/
theorem router_fallback_on_user_session_failure_witness :
    get_client c2Env c2Db
        ⟨"default-token", some (.mk "default-token"), []⟩ (some 7)
      = .ok (Client.mk "default-token",
          ⟨"default-token", some (.mk "default-token"), []⟩)
    ∧ get_client_for_playlist c2Env c2Db
        ⟨"default-token", some (.mk "default-token"), []⟩ 1
      = .ok (Client.mk "default-token",
          ⟨"default-token", some (.mk "default-token"), []⟩) :=
  router_fallback_on_user_session_failure c2Env c2Db
    ⟨"default-token", some (.mk "default-token"), []⟩
    1 5 7 "user-token" (.mk "default-token")
    rfl (by decide) rfl (by decide) rfl rfl rfl rfl

/-! ### C7: mirroring the remote state locally -/

/-- The stored playlist record of the C7 scenario: created by user 5, no
custom cover recorded yet. -/
def c7Playlist : LocalPlaylist := ⟨"200", "uid-1", 5, some ("Old"), none, "end"⟩

/-- Database of the C7 scenario. -/
def c7Db : Db :=
  { playlists := fun i => if i = 1 then some c7Playlist else none
    access_rows := [⟨1, 5, true, true, true⟩] }

/-- C7 counterexample: a `set_playlist_cover` call by the creator whose
remote upload succeeds returns `(True, None)` but leaves the database
completely untouched — the stored `cover_url` is still `none`, so the
local record does not mirror the remote state after a successful
setCover. -/
theorem set_cover_leaves_local_record_unchanged :
    (service_set_playlist_cover c7Db 1 5 true none).1 = (true, none)
    ∧ (service_set_playlist_cover c7Db 1 5 true none).2 = c7Db
    ∧ ((service_set_playlist_cover c7Db 1 5 true none).2.playlists 1).map
        LocalPlaylist.cover_url = some none :=
  ⟨rfl, rfl, rfl⟩

/-- C7 (amended): after a successful rename the stored title is updated to
the new name (mirroring the remote state), but after a successful setCover
the database is returned unchanged — the stored cover field is not
updated (it is refreshed only by the separate `sync_playlist_from_api`
path). -/
theorem rename_mirrors_title_cover_not_mirrored
    (db : Db) (pid tid : Nat) (new_name : String) (e : Option String)
    (p : LocalPlaylist)
    (hp : db.playlists pid = some p)
    (hcr : is_playlist_creator db pid tid = true) :
    (edit_playlist_name db pid new_name tid true e).1 = (true, none)
    ∧ ((edit_playlist_name db pid new_name tid true e).2).playlists pid
        = some { p with title := some new_name }
    ∧ service_set_playlist_cover db pid tid true e = ((true, none), db) := by
  refine ⟨?_, ?_, ?_⟩
  · simp [edit_playlist_name, hp, hcr]
  · simp [edit_playlist_name, hp, hcr, update_playlist]
  · simp [service_set_playlist_cover, hp, hcr]

/-- C7 amended-theorem witness: the amended statement at the concrete
scenario database. -/
theorem rename_mirrors_title_cover_not_mirrored_witness :
    (edit_playlist_name c7Db 1 "New" 5 true none).1 = (true, none)
    ∧ ((edit_playlist_name c7Db 1 "New" 5 true none).2).playlists 1
        = some { c7Playlist with title := some ("New") }
    ∧ service_set_playlist_cover c7Db 1 5 true none = ((true, none), c7Db) :=
  rename_mirrors_title_cover_not_mirrored c7Db 1 5 "New" none c7Playlist rfl rfl

/-! ### C10: a snapshot without a revision attribute -/

/-- A remote snapshot carrying no `revision` attribute. -/
def noRevSnapshot : RemotePlaylist Nat := ⟨none, some [1, 2]⟩

/-- C10 counterexample: on a revision-less snapshot none of the three
operations fail and all substitute the default 1 for the local revision
value — but while the insert and delete requests are submitted with
revision parameter 1, the cover-upload request carries no revision
parameter at all (`none`, not `some 1`), so setCover does not "submit the
write with revision = 1". -/
theorem cover_upload_carries_no_revision :
    (insert_track_to_playlist "end"
        [(.fetched noRevSnapshot .ok : InsertStep Nat)]).reqs.map
        InsertReq.revisionParam = [some 1]
    ∧ (delete_track_from_playlist 0 0
        [(.fetched noRevSnapshot (.status 200 true) none : DeleteStep Nat)]).reqs.map
        DeleteReq.revisionParam = [some 1]
    ∧ set_playlist_cover (.bytesLike [9])
        [(.fetched noRevSnapshot 200 : CoverStep Nat)]
      = ⟨.success, [⟨[9]⟩], [1]⟩
    ∧ (CoverUploadReq.mk [9]).revisionParam = none
    ∧ (none : Option Int) ≠ some 1 :=
  ⟨rfl, rfl, rfl, rfl, by decide⟩

/-- C10 (amended): when the fetched snapshot has no revision attribute,
none of insert, delete or setCover fail: the local default
`revision = getattr(pl, "revision", 1) = 1` is substituted everywhere;
insert and delete submit their write with revision parameter 1, while
setCover also proceeds (and succeeds on a 200 upload) but its upload
request carries no revision parameter at all. -/
theorem missing_revision_defaults_to_one
    (pl : RemotePlaylist Nat) (pos : String) (sub : InsertSubmit)
    (rest : List (InsertStep Nat)) (data : List Nat)
    (restC : List (CoverStep Nat)) (from_idx to_idx : Int)
    (http : SubmitHttp) (verify : Option (RemotePlaylist Nat))
    (restD : List (DeleteStep Nat))
    (hrev : pl.revision = none)
    (h0 : 0 ≤ from_idx) (h1 : from_idx ≤ to_idx)
    (h2 : to_idx < ((tracksOf pl).length : Int)) :
    revisionOf pl = 1
    ∧ (insert_track_to_playlist pos (.fetched pl sub :: rest)).reqs.head?.map
        InsertReq.revisionParam = some (some 1)
    ∧ (delete_track_from_playlist from_idx to_idx
        (.fetched pl http verify :: restD)).reqs.head?.map
        DeleteReq.revisionParam = some (some 1)
    ∧ set_playlist_cover (.bytesLike data) (.fetched pl 200 :: restC)
      = ⟨.success, [⟨data⟩], [1]⟩
    ∧ (∀ r : CoverUploadReq, r.revisionParam = none) := by
  have hone : revisionOf pl = 1 := by simp [revisionOf, hrev]
  refine ⟨hone, ?_, ?_, ?_, fun r => rfl⟩
  · rw [insert_first_req]
    simp [InsertReq.revisionParam, hone]
  · rw [delete_first_req from_idx to_idx pl http verify restD h0 h1 h2]
    simp [DeleteReq.revisionParam, hone]
  · simp [set_playlist_cover, hone]

/-- C10 amended-theorem witness: the amended statement on the concrete
revision-less 2-track snapshot. -/
theorem missing_revision_defaults_to_one_witness :
    revisionOf noRevSnapshot = 1
    ∧ (insert_track_to_playlist "end"
        [(.fetched noRevSnapshot .ok : InsertStep Nat)]).reqs.head?.map
        InsertReq.revisionParam = some (some 1)
    ∧ (delete_track_from_playlist 0 0
        [(.fetched noRevSnapshot (.status 200 true) none :
          DeleteStep Nat)]).reqs.head?.map DeleteReq.revisionParam
      = some (some 1)
    ∧ set_playlist_cover (.bytesLike [9])
        [(.fetched noRevSnapshot 200 : CoverStep Nat)]
      = ⟨.success, [⟨[9]⟩], [1]⟩
    ∧ (CoverUploadReq.mk [9]).revisionParam = none := by
  have h := missing_revision_defaults_to_one noRevSnapshot "end" .ok [] [9] []
    0 0 (.status 200 true) none []
    rfl (by norm_num) (by norm_num) (by norm_num [tracksOf, noRevSnapshot])
  exact ⟨h.1, h.2.1, h.2.2.1, h.2.2.2.1, h.2.2.2.2 ⟨[9]⟩⟩

end YmBot
